import Mathlib

/-!
Verification of the webseal window/renderer bridge.

This file shallowly embeds the parts of the repository that the checked
properties are about:

* the message enums `UserEvent`, `ToLuau`, `ToWindow` (src/lib.rs),
* the hit-test classifier `check_bounds` (src/resize.rs),
* the content-script IPC handler closure in `spawn` (src/lib.rs, lines 84-118),
* one tick of the window thread's event loop (src/lib.rs, lines 152-230),
* the five host-facing bridge operations of `WebviewIpc` together with the
  tagged-handle extraction `WebviewIpc::get` (src/webview_ipc.rs).

Machine floats (`f32`/`f64`) are modelled as `ℚ`; every concrete value used
below has magnitude well under `2^24`, where the `u32 -> f32` cast in the
source is exact.  Rust's `as i32` cast truncates toward zero, which agrees
with the rational floor on the non-negative quantities that arise here.
Strings are worked with through their underlying `List Char` so that every
definition reduces in the kernel.
-/

namespace Webseal

/-- `enum UserEvent` from src/lib.rs (lines 28-36): events the IPC handler
forwards to the event loop through the event-loop proxy. -/
inductive UserEvent
  | Minimize
  | Maximize
  | DragWindow
  | CloseWindow
  | MouseDown (x y : Int)
  | MouseMove (x y : Int)
  | SendIpc (body : String)
  deriving DecidableEq

/-- `enum ToLuau` from src/lib.rs (lines 39-43): events the window thread
enqueues for the host.  The two `f32` fields of `SizeReturned` are modelled
as `ℚ`. -/
inductive ToLuau
  | IpcMessage (s : String)
  | SizeReturned (w h : ℚ)
  | WindowClosed
  deriving DecidableEq

/-- `enum ToWindow` from src/lib.rs (lines 46-51): commands the host
enqueues for the window thread. -/
inductive ToWindow
  | ReplaceHtml (s : String)
  | SetAlert (b : Bool)
  | SizeRequested
  | Close
  deriving DecidableEq

/-- `enum HitTestResult` from src/resize.rs (lines 8-19). -/
inductive HitTestResult
  | Client
  | Left
  | Right
  | Top
  | Bottom
  | TopLeft
  | TopRight
  | BottomLeft
  | BottomRight
  | NoWhere
  deriving DecidableEq

/-- `check_bounds` from src/resize.rs (lines 51-88).  `window_size` is a
physical size (`u32` width/height, modelled as `ℕ`); `x`, `y` are the raw
pointer coordinates (`i32`, modelled as `Int`); `scale` is the display scale
factor (`f64`, modelled as `ℚ`).  The source converts the physical size to
logical via `(window_size.width as f64 / scale) as i32`; the `as i32`
truncation coincides with the floor for the non-negative values that occur
(width, height and scale are non-negative). -/
def check_bounds (width_p height_p : ℕ) (x y : Int) (scale : ℚ) : HitTestResult :=
  let width : Int := ⌊(width_p : ℚ) / scale⌋
  let height : Int := ⌊(height_p : ℚ) / scale⌋
  let inset : Int := 5
  let result : ℕ :=
    (if x < inset then 1 else 0) |||
    (if x ≥ width - inset then 2 else 0) |||
    (if y < inset then 4 else 0) |||
    (if y ≥ height - inset then 8 else 0)
  match result with
  | 0 => .Client
  | 1 => .Left
  | 2 => .Right
  | 4 => .Top
  | 8 => .Bottom
  | 5 => .TopLeft
  | 6 => .TopRight
  | 9 => .BottomLeft
  | 10 => .BottomRight
  | _ => .NoWhere

/-- Checks whether `pat` is an initial segment of `s`; on success returns the
remainder of `s` after that segment.  This is the primitive behind both
`str::starts_with` and the match step of `str::replace` in the handler. -/
def dropLead : List Char → List Char → Option (List Char)
  | [], s => some s
  | _ :: _, [] => none
  | p :: ps, c :: cs => if c = p then dropLead ps cs else none

/-- One faithful model of Rust `str::replace(pat, rep)`: scan left to right,
replacing non-overlapping occurrences of `pat`.  `fuel` bounds the recursion
(callers pass the length of the scanned list, which suffices for the
non-empty pattern `"input!"` used in the source). -/
def replaceAllAux (pat rep : List Char) : ℕ → List Char → List Char
  | _, [] => []
  | 0, l => l
  | fuel + 1, c :: cs =>
    match dropLead pat (c :: cs) with
    | some rest => rep ++ replaceAllAux pat rep fuel rest
    | none => c :: replaceAllAux pat rep fuel cs

/-- `body.replace("input!", "")` from src/lib.rs line 87 (specialised to the
pattern and replacement used there). -/
def stripInputTag (body : String) : List Char :=
  replaceAllAux "input!".data [] (body.data.length + 1) body.data

/-- `body.starts_with("input!")` from src/lib.rs line 86. -/
def hasInputTag (body : String) : Bool :=
  (dropLead "input!".data body.data).isSome

/-- Rust `str::split` over a character set, as used in src/lib.rs line 88
(`body.split([':', ','])`): the result is never empty, an empty input yields
one empty field, and separators produce empty fields around them. -/
def splitChars (p : Char → Bool) : List Char → List (List Char)
  | [] => [[]]
  | c :: cs =>
    let r := splitChars p cs
    if p c then [] :: r
    else
      match r with
      | [] => [[c]]
      | g :: gs => (c :: g) :: gs

/-- Digit-string parsing helper for `parse_i32`: all-digit, non-empty. -/
def parseDigits (l : List Char) : Option ℕ :=
  if l = [] then none
  else if l.all (fun c => c.isDigit) then
    some (l.foldl (fun a c => a * 10 + (c.toNat - 48)) 0)
  else none

/-- Rust `<i32 as FromStr>::from_str`, as invoked by `.parse()` in the IPC
handler (src/lib.rs lines 103-110): optional `+`/`-` sign, one or more ASCII
digits, and the value must fit in `i32`. -/
def parse_i32 (s : List Char) : Option Int :=
  let signAndDigits : Int × List Char :=
    match s with
    | '-' :: rest => (-1, rest)
    | '+' :: rest => (1, rest)
    | l => (1, l)
  match parseDigits signAndDigits.2 with
  | none => none
  | some n =>
    let v : Int := signAndDigits.1 * (n : Int)
    if -(2 ^ 31) ≤ v ∧ v < 2 ^ 31 then some v else none

/-- Outcome of one run of the IPC handler closure (src/lib.rs lines 84-118)
on a content message: it forwards at most one `UserEvent` through the
event-loop proxy (best-effort, `let _ = ...send_event(..)`), falls through
silently (`_ => {}`), or hits one of its `unwrap()` calls and panics. -/
inductive HandlerResult
  | sent (e : UserEvent)
  | noSend
  | panicked
  deriving DecidableEq

/-- The token the handler matches on: the first field of the split of the
stripped body (`req.next().unwrap()`, src/lib.rs line 89).  `splitChars`
never returns `[]`, so the `headD` default is never used. -/
def firstToken (body : String) : List Char :=
  (splitChars (fun c => c = ':' || c = ',') (stripInputTag body)).headD []

/-- The IPC handler closure registered with the webview
(src/lib.rs lines 84-118).  Bodies starting with `"input!"` are stripped of
every occurrence of that tag, split on `':'` and `','`, and dispatched on
the first field; the coordinate commands call `.parse().unwrap()` on the
next two fields (panicking when a field is missing or fails to parse as
`i32`).  Any other body is forwarded verbatim as `UserEvent::SendIpc`. -/
def ipcHandler (body : String) : HandlerResult :=
  if hasInputTag body then
    match splitChars (fun c => c = ':' || c = ',') (stripInputTag body) with
    | [] => .panicked
    | cmd :: rest =>
      if cmd = "minimize".data then .sent .Minimize
      else if cmd = "maximize".data then .sent .Maximize
      else if cmd = "drag_window".data then .sent .DragWindow
      else if cmd = "close".data then .sent .CloseWindow
      else if cmd = "mousedown".data then
        match rest with
        | [] => .panicked
        | xs :: rest2 =>
          match parse_i32 xs with
          | none => .panicked
          | some x =>
            match rest2 with
            | [] => .panicked
            | ys :: _ =>
              match parse_i32 ys with
              | none => .panicked
              | some y => .sent (.MouseDown x y)
      else if cmd = "mousemove".data then
        match rest with
        | [] => .panicked
        | xs :: rest2 =>
          match parse_i32 xs with
          | none => .panicked
          | some x =>
            match rest2 with
            | [] => .panicked
            | ys :: _ =>
              match parse_i32 ys with
              | none => .panicked
              | some y => .sent (.MouseMove x y)
      else .noSend
  else .sent (.SendIpc body)

/-- The native events relevant to one iteration of the event loop closure
(src/lib.rs lines 194-230): `NewEvents(StartCause::Init)`, the OS close
request, a `UserEvent` forwarded by the IPC handler, or anything else
(matched by the final catch-all arm). -/
inductive TaoEvent
  | newEventsInit
  | closeRequested
  | userEvent (e : UserEvent)
  | otherEvent
  deriving DecidableEq

/-- Inputs to one iteration of the event loop closure: the result of
`receiver.try_recv()` (`none` covers both `Empty` and `Disconnected`, which
the source treats alike via `_ => {}`), the native event dispatched this
tick, and the window's current physical inner size and scale factor. -/
structure TickInput where
  cmd : Option ToWindow
  event : TaoEvent
  width : ℕ
  height : ℕ
  scale : ℚ
  deriving DecidableEq

/-- Observable outcome of one iteration: the `ToLuau` events whose send is
attempted on the Event Queue (in program order), and whether `control_flow`
ends the tick as `Exit`. -/
structure TickOut where
  emitted : List ToLuau
  exitLoop : Bool
  deriving DecidableEq

/-- One iteration of the window thread's event loop closure
(src/lib.rs lines 152-230).  The command phase (`receiver.try_recv()`) runs
first: `Close` sets `control_flow` to `Exit` (and sends nothing),
`SizeRequested` sends `SizeReturned(width as f32, height as f32)` — the raw
physical size cast to float, with no scale division — and
`ReplaceHtml`/`SetAlert` only touch the window.  The native-event phase then
runs: `CloseRequested` or `UserEvent::CloseWindow` sends `WindowClosed` and
sets `Exit`; `UserEvent::SendIpc(body)` sends `IpcMessage(body)`; all other
arms perform only window actions.  `control_flow` is reset to `Poll` at the
top of the closure and set to `Exit` only in the two places modelled. -/
def tick (inp : TickInput) : TickOut :=
  let cmdPart : TickOut :=
    match inp.cmd with
    | some .Close => ⟨[], true⟩
    | some .SizeRequested => ⟨[.SizeReturned (inp.width : ℚ) (inp.height : ℚ)], false⟩
    | _ => ⟨[], false⟩
  let evPart : TickOut :=
    match inp.event with
    | .closeRequested => ⟨[.WindowClosed], true⟩
    | .userEvent .CloseWindow => ⟨[.WindowClosed], true⟩
    | .userEvent (.SendIpc body) => ⟨[.IpcMessage body], false⟩
    | _ => ⟨[], false⟩
  ⟨cmdPart.emitted ++ evPart.emitted, cmdPart.exitLoop || evPart.exitLoop⟩

/-- An execution of the event loop over a sequence of tick inputs: iterate
`tick` until a tick leaves `control_flow` at `Exit`, collecting every event
whose send was attempted.  Returns the collected events and whether the
loop terminated. -/
def runLoop : List TickInput → List ToLuau × Bool
  | [] => ([], false)
  | i :: rest =>
    let t := tick i
    if t.exitLoop then (t.emitted, true)
    else
      let r := runLoop rest
      (t.emitted ++ r.1, r.2)

/-- State of the host-held send half of the Command Queue
(`crossbeam_channel::Sender<ToWindow>`): a crossbeam send succeeds exactly
when the receiver — owned by the window thread, dropped when its loop ends —
is still alive. -/
structure CmdChan where
  receiverAlive : Bool
  deriving DecidableEq

/-- `ipc.sender.send(..)` delivery: `true` = `Ok(())`, `false` =
`Err(SendError)` (receiver dropped). -/
def sendCmd (c : CmdChan) : Bool := c.receiverAlive

/-- State of the host-held receive half of the Event Queue
(`crossbeam_channel::Receiver<ToLuau>`): the queued events in FIFO order and
whether the window thread's sender is still alive. -/
structure EvChan where
  pending : List ToLuau
  senderAlive : Bool
  deriving DecidableEq

/-- Result of `receiver.try_recv()` on the Event Queue. -/
inductive TryRecvResult
  | got (e : ToLuau)
  | empty
  | disconnected
  deriving DecidableEq

/-- crossbeam `try_recv` semantics: a queued event is returned first; an
empty queue reports `Empty` while the sender lives and `Disconnected`
afterwards. -/
def try_recv (c : EvChan) : TryRecvResult :=
  match c.pending with
  | e :: _ => .got e
  | [] => if c.senderAlive then .empty else .disconnected

/-- Result of the blocking `receiver.recv()` on the Event Queue as observed
by the host: a value, a `RecvError` (empty and disconnected), or never
returning because the queue is empty but the sender is still alive. -/
inductive RecvResult
  | got (e : ToLuau)
  | disconnected
  | blocksForever
  deriving DecidableEq

/-- crossbeam blocking `recv` semantics over the channel state. -/
def recv (c : EvChan) : RecvResult :=
  match c.pending with
  | e :: _ => .got e
  | [] => if c.senderAlive then .blocksForever else .disconnected

/-- The `*mut WebviewIpc` stored inside the userdata payload
(`*mut *mut WebviewIpc`): either null or the live bridge allocation. -/
inductive InnerPtr
  | nullPtr
  | valid
  deriving DecidableEq

/-- A value presented on the Luau stack where an operation expects an
argument: a tagged userdata (with its tag and stored inner pointer), a
string, a boolean, some other value (with its `luaL_typename`), or no value
at all (`lua_isnone`). -/
inductive LuaValue
  | userdata (tag : Int) (inner : InnerPtr)
  | str (s : String)
  | boolean (b : Bool)
  | other (typename : String)
  | absent
  deriving DecidableEq

/-- `luaL_typename` for the modelled stack values. -/
def typeName : LuaValue → String
  | .userdata _ _ => "userdata"
  | .str _ => "string"
  | .boolean _ => "boolean"
  | .other t => t
  | .absent => "no value"

/-- `WEBVIEW_IPC_TAG` from src/webview_ipc.rs line 11. -/
def WEBVIEW_IPC_TAG : Int := 13

/-- `WebviewIpc::get` (src/webview_ipc.rs lines 27-68): handle extraction
from the Luau stack.  For a userdata, `lua_touserdatatagged(.., 13)` yields
null exactly when the tag differs, which is rejected with the
wrong-kind-of-userdata error; a matching tag is then dereferenced one level
and the stored `*mut WebviewIpc` is rejected, while still not dereferenced,
if null.  A missing value and a non-userdata value get their own errors.
`Except.ok` means the extraction reached a live `&WebviewIpc` (whose two
channel halves are the channel parameters of the operations below). -/
def get (v : LuaValue) (function_name : String) : Except String Unit :=
  match v with
  | .userdata tag inner =>
    if tag = WEBVIEW_IPC_TAG then
      match inner with
      | .nullPtr =>
        .error "inner pointer to *mut WebviewIpc inside the userdata holding *mut *mut WebviewIpc is null"
      | .valid => .ok ()
    else .error "self is the wrong kind of userdata (expected WebviewIpc tag 13)"
  | .absent => .error (function_name ++ ": you forgot to pass self")
  | w => .error (function_name ++ ": expected to be passed self, got " ++ typeName w)

/-- What a bridge operation leaves for the host: a pushed string, a pushed
vector, a pushed nil, no values, a wrapped error object
(`push_wrapped_error`), a Rust panic (`unreachable!`/`unwrap`), or a
blocking receive that never returns. -/
inductive LuaRet
  | value (s : String)
  | vec (w h z : ℚ)
  | nilv
  | noValues
  | errorObj (msg : String)
  | panicked (msg : String)
  | blocked
  deriving DecidableEq

/-- Index of the first NUL character of a payload, as `CString::new`
reports it (`NulError::nul_position`).  Positions are counted in characters;
for the ASCII payloads exercised here this equals the byte position. -/
def nulIdx : List Char → Option ℕ
  | [] => none
  | c :: cs => if c = Char.ofNat 0 then some 0 else (nulIdx cs).map (· + 1)

/-- First-NUL position of a message string. -/
def nulPos (s : String) : Option ℕ := nulIdx s.data

/-- The `CString::new(message)` step of `try_read`
(src/webview_ipc.rs lines 133-139): a NUL-free payload is passed through
unchanged; a payload with an embedded NUL is replaced by the descriptive
string naming the NUL's position. -/
def cstringOf (function_name s : String) : String :=
  match nulPos s with
  | none => s
  | some p => function_name ++ ": IPC message contains NUL byte at " ++ toString p

/-- Abbreviated `{:?}` rendering of a `ToLuau` event, used only inside the
error text of `size` for an unexpected variant; the claims below depend
only on that result being an error, not on the exact rendering. -/
def debugFmt : ToLuau → String
  | .IpcMessage s => "IpcMessage(" ++ s ++ ")"
  | .SizeReturned w h => "SizeReturned(" ++ toString w ++ ", " ++ toString h ++ ")"
  | .WindowClosed => "WindowClosed"

namespace WebviewIpc

/-- `WebviewIpc::replace_html` (src/webview_ipc.rs lines 69-112): check the
argument count, extract the handle, check `new_html` is a string, then send
`ToWindow::ReplaceHtml`; a failed send (receiver dropped) is reported as a
wrapped error carrying the crossbeam `SendError` display text. -/
def replace_html (top : Int) (selfv newHtml : LuaValue) (cmd : CmdChan) : LuaRet :=
  let function_name := "WebviewIpc:replace_html(new_html: string)"
  if top ≠ 2 then
    .errorObj (function_name ++
      ": called without required arguments; expected 2 arguments (self, string), got " ++ toString top)
  else
    match get selfv function_name with
    | .error m => .errorObj m
    | .ok () =>
      match newHtml with
      | .str _ =>
        if sendCmd cmd then .noValues
        else .errorObj "unable to send message due to err: sending on a disconnected channel"
      | .absent => .errorObj (function_name ++ ": called without required argument new_html")
      | w => .errorObj (function_name ++ ": expected 'new_html' to be a string, got " ++ typeName w)

/-- `WebviewIpc::try_read` (src/webview_ipc.rs lines 113-156): check the
argument count, extract the handle, then map the non-blocking poll of the
Event Queue: an `IpcMessage` is pushed as a string (after the `CString`
NUL re-validation), `WindowClosed` and `Disconnected` become wrapped
errors, `Empty` pushes nil, and `SizeReturned` hits the `unreachable!`
panic. -/
def try_read (top : Int) (selfv : LuaValue) (ev : EvChan) : LuaRet :=
  let function_name := "WebviewIpc:try_read(new_html: string)"
  if top ≠ 1 then
    .errorObj (function_name ++ ": called without required arguments; expected 1 (self), got " ++ toString top)
  else
    match get selfv function_name with
    | .error m => .errorObj m
    | .ok () =>
      match try_recv ev with
      | .got (.IpcMessage m) => .value (cstringOf function_name m)
      | .got .WindowClosed => .errorObj "the window has been closed"
      | .got (.SizeReturned _ _) => .panicked "only reachable from WindowIpc:size()"
      | .disconnected => .errorObj "channel is disconnected"
      | .empty => .nilv

/-- `WebviewIpc::alert` (src/webview_ipc.rs lines 157-193): check the
argument count, extract the handle, check `enabled` is a boolean, then send
`ToWindow::SetAlert`. -/
def alert (top : Int) (selfv enabled : LuaValue) (cmd : CmdChan) : LuaRet :=
  let function_name := "WebviewIpc:alert(enabled: boolean)"
  if top ≠ 2 then
    .errorObj (function_name ++ ": expected to be called with 2 arguments, got " ++ toString top)
  else
    match get selfv function_name with
    | .error m => .errorObj m
    | .ok () =>
      match enabled with
      | .boolean _ =>
        if sendCmd cmd then .noValues
        else .errorObj (function_name ++ ": unable to send message via ipc due to err: sending on a disconnected channel")
      | _ => .errorObj (function_name ++ ": expected enabled to be a boolean, got something else or nil")

/-- `WebviewIpc::size` (src/webview_ipc.rs lines 194-232): check the
argument count, extract the handle, send `ToWindow::SizeRequested` (a failed
send is a wrapped error), then perform a blocking receive on the Event
Queue: a `SizeReturned(w, h)` reply is pushed as the vector `(w, h, 0)`;
any other variant and a `RecvError` become wrapped errors. -/
def size (top : Int) (selfv : LuaValue) (cmd : CmdChan) (ev : EvChan) : LuaRet :=
  let function_name := "WebviewIpc:size"
  if top ≠ 1 then
    .errorObj (function_name ++ ": called without required arguments; expected 1 (self), got " ++ toString top)
  else
    match get selfv function_name with
    | .error m => .errorObj m
    | .ok () =>
      if sendCmd cmd then
        match recv ev with
        | .got (.SizeReturned w h) => .vec w h 0
        | .got t => .errorObj (function_name ++ ": unexpected message type returned: " ++ debugFmt t)
        | .disconnected =>
          .errorObj (function_name ++ ": unable to recv due to err: receiving on an empty and disconnected channel")
        | .blocksForever => .blocked
      else .errorObj (function_name ++ ": unable to send request for size due to err sending on a disconnected channel")

/-- `WebviewIpc::close` (src/webview_ipc.rs lines 233-257): check the
argument count, extract the handle, then send `ToWindow::Close`. -/
def close (top : Int) (selfv : LuaValue) (cmd : CmdChan) : LuaRet :=
  let function_name := "WebviewIpc:close()"
  if top ≠ 1 then
    .errorObj (function_name ++ ": expected to be called with only self, got " ++ toString top ++ " arguments")
  else
    match get selfv function_name with
    | .error m => .errorObj m
    | .ok () =>
      if sendCmd cmd then .noValues
      else .errorObj (function_name ++ ": unable to send message to close window due to err: sending on a disconnected channel")

end WebviewIpc

/-- A correctly tagged, live bridge handle on the Luau stack (as produced by
`webview_create`, src/lib.rs lines 303-309). -/
def validSelf : LuaValue := .userdata WEBVIEW_IPC_TAG .valid

/-- An operation outcome that the host can consume: a pushed value (string,
vector, nil, or no return values) or a wrapped error object — as opposed to
a Rust panic or a receive that never returns. -/
def isValueOrError : LuaRet → Prop
  | .panicked _ => False
  | .blocked => False
  | _ => True

/-- Modelled from the spec: "On `RequestSize`: read current window size,
convert to logical float units" — the physical size divided componentwise
by the display scale factor.  This is the comparator for the refinement
claim about `SizeReport`; the code-side behavior is in `tick`. -/
def spec_logical_size (w h : ℕ) (scale : ℚ) : ℚ × ℚ :=
  ((w : ℚ) / scale, (h : ℚ) / scale)

/-- The error text `get` produces for a correctly tagged userdata whose
stored `*mut WebviewIpc` is null (src/webview_ipc.rs line 62). -/
def nullInnerMsg : String :=
  "inner pointer to *mut WebviewIpc inside the userdata holding *mut *mut WebviewIpc is null"

/-- The error text `get` produces for a userdata with the wrong tag
(src/webview_ipc.rs line 48). -/
def wrongKindMsg : String :=
  "self is the wrong kind of userdata (expected WebviewIpc tag 13)"

/-- The wrong-argument-count error text of `WebviewIpc::replace_html`. -/
def argcMsgReplaceHtml (top : Int) : String :=
  "WebviewIpc:replace_html(new_html: string)" ++
    ": called without required arguments; expected 2 arguments (self, string), got " ++ toString top

/-- The wrong-argument-count error text of `WebviewIpc::try_read`. -/
def argcMsgTryRead (top : Int) : String :=
  "WebviewIpc:try_read(new_html: string)" ++
    ": called without required arguments; expected 1 (self), got " ++ toString top

/-- The wrong-argument-count error text of `WebviewIpc::alert`. -/
def argcMsgAlert (top : Int) : String :=
  "WebviewIpc:alert(enabled: boolean)" ++
    ": expected to be called with 2 arguments, got " ++ toString top

/-- The wrong-argument-count error text of `WebviewIpc::size`. -/
def argcMsgSize (top : Int) : String :=
  "WebviewIpc:size" ++
    ": called without required arguments; expected 1 (self), got " ++ toString top

/-- The wrong-argument-count error text of `WebviewIpc::close`. -/
def argcMsgClose (top : Int) : String :=
  "WebviewIpc:close()" ++
    ": expected to be called with only self, got " ++ toString top ++ " arguments"

end Webseal

namespace Webseal

/-- C7: for a physical window of 800×600 at scale 1.0 (inset 5), the
hit-test classifier maps (0,0)→TopLeft, (400,0)→Top, (799,0)→TopRight,
(400,300)→Client, (0,300)→Left, (799,599)→BottomRight, (-1,300)→Left and
(400,599)→Bottom. -/
theorem c7_hit_test_samples :
    check_bounds 800 600 0 0 1 = .TopLeft ∧
    check_bounds 800 600 400 0 1 = .Top ∧
    check_bounds 800 600 799 0 1 = .TopRight ∧
    check_bounds 800 600 400 300 1 = .Client ∧
    check_bounds 800 600 0 300 1 = .Left ∧
    check_bounds 800 600 799 599 1 = .BottomRight ∧
    check_bounds 800 600 (-1) 300 1 = .Left ∧
    check_bounds 800 600 400 599 1 = .Bottom := by
  have h1 : ⌊((800 : ℕ) : ℚ) / 1⌋ = (800 : Int) := by norm_num
  have h2 : ⌊((600 : ℕ) : ℚ) / 1⌋ = (600 : Int) := by norm_num
  refine ⟨?_, ?_, ?_, ?_, ?_, ?_, ?_, ?_⟩ <;>
    simp only [check_bounds, h1, h2] <;> decide

/-- C2: evaluation of the IPC handler at the malformed content message
`"input!mousedown:abc"`.  The coordinate fields fail to parse as `i32`, and
the handler's `.parse().unwrap()` (src/lib.rs line 103) panics, unwinding
through the closure and taking down the window thread's event loop — the
parse failure is NOT handled. -/
theorem c2_malformed_mousedown_panics :
    ipcHandler "input!mousedown:abc" = HandlerResult.panicked := by
  decide

/-- C3 counterexample: the content message `"input!foo"` begins with
`"input!"` but names an unrecognized command; the handler silently drops it
(`_ => {}`, src/lib.rs line 112) instead of forwarding it verbatim as
application content, refuting the claim at this input. -/
theorem c3_counterexample :
    ipcHandler "input!foo" = HandlerResult.noSend ∧
    HandlerResult.noSend ≠ HandlerResult.sent (UserEvent.SendIpc "input!foo") := by
  refine ⟨by decide, by decide⟩

/-- `splitChars` never produces an empty field list (Rust `str::split`
always yields at least one field), so the handler's first
`req.next().unwrap()` cannot panic. -/
theorem splitChars_ne_nil (p : Char → Bool) (l : List Char) : splitChars p l ≠ [] := by
  cases l with
  | nil => simp [splitChars]
  | cons c cs =>
    simp only [splitChars]
    split
    · simp
    · split <;> simp

/-- C3 (amended): a content message that does not begin with `"input!"` is
forwarded verbatim as `UserEvent::SendIpc`, and the event-loop tick that
dispatches that user event enqueues `ContentMessage` (`IpcMessage`) with the
body verbatim; but a message that begins with `"input!"` and names an
unrecognized command is silently dropped — no event is forwarded at all. -/
theorem c3_passthrough_amended :
    (∀ body : String, hasInputTag body = false →
      ipcHandler body = HandlerResult.sent (UserEvent.SendIpc body) ∧
      ∀ (w h : ℕ) (s : ℚ),
        (tick ⟨none, TaoEvent.userEvent (UserEvent.SendIpc body), w, h, s⟩).emitted
          = [ToLuau.IpcMessage body]) ∧
    (∀ body : String, hasInputTag body = true →
      firstToken body ≠ "minimize".data → firstToken body ≠ "maximize".data →
      firstToken body ≠ "drag_window".data → firstToken body ≠ "close".data →
      firstToken body ≠ "mousedown".data → firstToken body ≠ "mousemove".data →
      ipcHandler body = HandlerResult.noSend) := by
  constructor
  · intro body hno
    constructor
    · simp [ipcHandler, hno]
    · intro w h s
      simp [tick]
  · intro body hin h1 h2 h3 h4 h5 h6
    unfold ipcHandler
    simp only [hin, if_true]
    cases hsp : splitChars (fun c => c = ':' || c = ',') (stripInputTag body) with
    | nil => exact absurd hsp (splitChars_ne_nil _ _)
    | cons cmd rest =>
      have hcmd : firstToken body = cmd := by
        unfold firstToken
        rw [hsp]
        rfl
      rw [hcmd] at h1 h2 h3 h4 h5 h6
      simp [h1, h2, h3, h4, h5, h6]

/-- Witness for the amended C3 at concrete inputs: `"hello"` (no tag) is
forwarded verbatim, `"input!foo"` (unrecognized command) is dropped. -/
theorem c3_passthrough_amended_witness :
    hasInputTag "hello" = false ∧
    ipcHandler "hello" = HandlerResult.sent (UserEvent.SendIpc "hello") ∧
    hasInputTag "input!foo" = true ∧
    ipcHandler "input!foo" = HandlerResult.noSend :=
  ⟨by decide, (c3_passthrough_amended.1 "hello" (by decide)).1, by decide,
    c3_passthrough_amended.2 "input!foo" (by decide) (by decide) (by decide)
      (by decide) (by decide) (by decide) (by decide)⟩

/-- C1 counterexample: the execution in which the window thread dequeues the
host's `Close` command (and no native close event occurs) terminates the
event loop with no `WindowClosed` ever enqueued — `Ok(ToWindow::Close)`
only sets `ControlFlow::Exit` (src/lib.rs lines 164-166), and the
`WindowClosed` send (lines 196-206) is reached only from
`WindowEvent::CloseRequested` or `UserEvent::CloseWindow`. -/
theorem c1_counterexample :
    (runLoop [⟨some ToWindow.Close, TaoEvent.otherEvent, 800, 600, 1⟩]).2 = true ∧
    ToLuau.WindowClosed ∉ (runLoop [⟨some ToWindow.Close, TaoEvent.otherEvent, 800, 600, 1⟩]).1 := by
  refine ⟨by rfl, by simp [runLoop, tick]⟩

/-- C1 (amended): processing a `Close` command terminates the event loop in
that tick, but `WindowClosed` is enqueued in such a tick exactly when the
tick's native event is an OS close request or the content-script close user
event — a host `Close` command alone produces no `WindowClosed`. -/
theorem c1_close_amended (inp : TickInput) (h : inp.cmd = some ToWindow.Close) :
    (tick inp).exitLoop = true ∧
    (ToLuau.WindowClosed ∈ (tick inp).emitted ↔
      inp.event = TaoEvent.closeRequested ∨
      inp.event = TaoEvent.userEvent UserEvent.CloseWindow) := by
  rcases inp with ⟨c, e, w, ht, s⟩
  simp only at h
  subst h
  cases e with
  | userEvent ue => cases ue <;> simp [tick]
  | _ => simp [tick]

/-- Witness for the amended C1: a tick that dequeues `Close` with no native
close event exits without `WindowClosed`; the same conclusion evaluated at
that concrete input. -/
theorem c1_close_amended_witness :
    (tick ⟨some ToWindow.Close, TaoEvent.otherEvent, 640, 480, 1⟩).exitLoop = true ∧
    (ToLuau.WindowClosed ∈ (tick ⟨some ToWindow.Close, TaoEvent.otherEvent, 640, 480, 1⟩).emitted ↔
      TaoEvent.otherEvent = TaoEvent.closeRequested ∨
      TaoEvent.otherEvent = TaoEvent.userEvent UserEvent.CloseWindow) :=
  c1_close_amended ⟨some ToWindow.Close, TaoEvent.otherEvent, 640, 480, 1⟩ rfl

/-- C5 counterexample: at physical size 800×600 with scale factor 2, the
window thread's `SizeRequested` handler (src/lib.rs lines 167-174) enqueues
`SizeReturned(800, 600)` — the physical size cast to float — while the
claimed logical conversion would be `(400, 300)`. -/
theorem c5_counterexample :
    (tick ⟨some ToWindow.SizeRequested, TaoEvent.otherEvent, 800, 600, 2⟩).emitted
      = [ToLuau.SizeReturned 800 600] ∧
    spec_logical_size 800 600 2 = (400, 300) ∧
    ToLuau.SizeReturned 800 600 ≠
      ToLuau.SizeReturned (spec_logical_size 800 600 2).1 (spec_logical_size 800 600 2).2 := by
  refine ⟨by simp [tick], ?_, ?_⟩
  · simp only [spec_logical_size]
    norm_num
  · simp only [spec_logical_size]
    norm_num

/-- C5 (amended): on `RequestSize` the window thread enqueues a `SizeReport`
carrying the current *physical* window size cast to float, with no division
by the scale factor. -/
theorem c5_size_report_amended (inp : TickInput) (h : inp.cmd = some ToWindow.SizeRequested) :
    (tick inp).emitted.head? = some (ToLuau.SizeReturned (inp.width : ℚ) (inp.height : ℚ)) := by
  rcases inp with ⟨c, e, w, ht, s⟩
  simp only at h
  subst h
  simp [tick]

/-- Witness for the amended C5 at a concrete tick input. -/
theorem c5_size_report_amended_witness :
    (tick ⟨some ToWindow.SizeRequested, TaoEvent.otherEvent, 1024, 768, 2⟩).emitted.head?
      = some (ToLuau.SizeReturned ((1024 : ℕ) : ℚ) ((768 : ℕ) : ℚ)) :=
  c5_size_report_amended ⟨some ToWindow.SizeRequested, TaoEvent.otherEvent, 1024, 768, 2⟩ rfl

/-- C4: a single `size()` call on a live bridge whose reply is at the head
of the Event Queue consumes exactly that one `SizeReport` and returns its
`(width, height)` (as the vector `(w, h, 0)`); any other dequeued variant
and a channel error are surfaced as wrapped errors; and once the window
thread has exited after emitting `WindowClosed` (so its command-queue
receiver is dropped), `size()` returns an error immediately instead of
blocking forever. -/
theorem c4_size_roundtrip (cmdA cmdD : CmdChan) (ev : EvChan) (w h : ℚ)
    (rest : List ToLuau) (alive : Bool) (e : ToLuau)
    (hA : cmdA.receiverAlive = true) (hD : cmdD.receiverAlive = false)
    (he : ∀ a b, e ≠ ToLuau.SizeReturned a b) :
    WebviewIpc.size 1 validSelf cmdA ⟨ToLuau.SizeReturned w h :: rest, alive⟩ = LuaRet.vec w h 0 ∧
    (∃ m, WebviewIpc.size 1 validSelf cmdA ⟨e :: rest, alive⟩ = LuaRet.errorObj m) ∧
    (∃ m, WebviewIpc.size 1 validSelf cmdA ⟨[], false⟩ = LuaRet.errorObj m) ∧
    (∃ m, WebviewIpc.size 1 validSelf cmdD ev = LuaRet.errorObj m) := by
  obtain ⟨ra⟩ := cmdA
  obtain ⟨rd⟩ := cmdD
  simp only at hA hD
  subst hA
  subst hD
  refine ⟨rfl, ?_, ⟨_, rfl⟩, ⟨_, rfl⟩⟩
  cases e with
  | IpcMessage s => exact ⟨_, rfl⟩
  | SizeReturned a b => exact absurd rfl (he a b)
  | WindowClosed => exact ⟨_, rfl⟩

/-- Witness for C4 at concrete channel states: a live bridge replying
`SizeReturned(1, 2)` and a dead bridge with an empty, disconnected queue. -/
theorem c4_size_roundtrip_witness :
    WebviewIpc.size 1 validSelf ⟨true⟩ ⟨ToLuau.SizeReturned 1 2 :: [], true⟩ = LuaRet.vec 1 2 0 ∧
    (∃ m, WebviewIpc.size 1 validSelf ⟨true⟩ ⟨ToLuau.WindowClosed :: [], true⟩ = LuaRet.errorObj m) ∧
    (∃ m, WebviewIpc.size 1 validSelf ⟨true⟩ ⟨[], false⟩ = LuaRet.errorObj m) ∧
    (∃ m, WebviewIpc.size 1 validSelf ⟨false⟩ ⟨[], false⟩ = LuaRet.errorObj m) :=
  c4_size_roundtrip ⟨true⟩ ⟨false⟩ ⟨[], false⟩ 1 2 [] true ToLuau.WindowClosed rfl rfl
    (fun _ _ hab => ToLuau.noConfusion hab)

/-- C8: `try_read`'s mapping of the non-blocking poll on a live handle — a
dequeued `ContentMessage` (NUL-free) yields its text, a dequeued
`WindowClosed` yields an error, an empty-but-open queue yields nil (not an
error), and a disconnected queue yields an error. -/
theorem c8_try_read_mapping (m : String) (rest : List ToLuau) (alive : Bool)
    (hm : nulPos m = none) :
    WebviewIpc.try_read 1 validSelf ⟨ToLuau.IpcMessage m :: rest, alive⟩ = LuaRet.value m ∧
    WebviewIpc.try_read 1 validSelf ⟨ToLuau.WindowClosed :: rest, alive⟩ =
      LuaRet.errorObj "the window has been closed" ∧
    WebviewIpc.try_read 1 validSelf ⟨[], true⟩ = LuaRet.nilv ∧
    WebviewIpc.try_read 1 validSelf ⟨[], false⟩ = LuaRet.errorObj "channel is disconnected" := by
  refine ⟨?_, by rfl, by rfl, by rfl⟩
  simp [WebviewIpc.try_read, get, validSelf, WEBVIEW_IPC_TAG, try_recv, cstringOf, hm]

/-- Witness for C8 with the concrete NUL-free payload `"hi"`. -/
theorem c8_try_read_mapping_witness :
    nulPos "hi" = none ∧
    WebviewIpc.try_read 1 validSelf ⟨[ToLuau.IpcMessage "hi"], true⟩ = LuaRet.value "hi" :=
  ⟨by decide, (c8_try_read_mapping "hi" [] true (by decide)).1⟩

/-- C10: a dequeued `ContentMessage` whose payload has an embedded NUL at
position `p` is replaced by the descriptive string naming that position
(src/webview_ipc.rs lines 133-139) — still delivered as a string value, not
truncated and not a crash. -/
theorem c10_nul_replaced (m : String) (p : ℕ) (rest : List ToLuau) (alive : Bool)
    (hp : nulPos m = some p) :
    WebviewIpc.try_read 1 validSelf ⟨ToLuau.IpcMessage m :: rest, alive⟩ =
      LuaRet.value ("WebviewIpc:try_read(new_html: string)" ++
        ": IPC message contains NUL byte at " ++ toString p) := by
  simp [WebviewIpc.try_read, get, validSelf, WEBVIEW_IPC_TAG, try_recv, cstringOf, hp]

/-- Witness for C10 with the payload `"a\x00b"`, whose NUL sits at
position 1. -/
theorem c10_nul_replaced_witness :
    nulPos (String.mk ['a', Char.ofNat 0, 'b']) = some 1 ∧
    WebviewIpc.try_read 1 validSelf ⟨[ToLuau.IpcMessage (String.mk ['a', Char.ofNat 0, 'b'])], true⟩ =
      LuaRet.value ("WebviewIpc:try_read(new_html: string)" ++
        ": IPC message contains NUL byte at " ++ toString (1 : ℕ)) :=
  ⟨by decide, c10_nul_replaced (String.mk ['a', Char.ofNat 0, 'b']) 1 [] true (by decide)⟩

/-- A successful `try_recv` means the dequeued event was at the head of the
queue. -/
theorem try_recv_got {c : EvChan} {e : ToLuau} (h : try_recv c = TryRecvResult.got e) :
    ∃ r, c.pending = e :: r := by
  rcases c with ⟨p, a⟩
  cases p with
  | nil =>
    cases a <;> simp [try_recv] at h
  | cons x xs =>
    simp [try_recv] at h
    exact ⟨xs, by rw [h]⟩

/-- C6 counterexample: when a `SizeReport` sits at the head of the Event
Queue, `try_read` on a valid handle hits the `unreachable!` panic
(src/webview_ipc.rs line 146) — the operation neither completes with a
value nor returns an error through the host's error convention. -/
theorem c6_counterexample :
    WebviewIpc.try_read 1 validSelf ⟨[ToLuau.SizeReturned 1 2], true⟩ =
      LuaRet.panicked "only reachable from WindowIpc:size()" ∧
    ¬ isValueOrError (WebviewIpc.try_read 1 validSelf ⟨[ToLuau.SizeReturned 1 2], true⟩) := by
  have h : WebviewIpc.try_read 1 validSelf ⟨[ToLuau.SizeReturned 1 2], true⟩ =
      LuaRet.panicked "only reachable from WindowIpc:size()" := rfl
  exact ⟨h, by rw [h]; simp [isValueOrError]⟩

/-- C6 (amended): every host-facing bridge operation, on every argument and
queue state, either completes with a value or returns a wrapped error —
except for the contract-violating state in which `try_read` dequeues a
`SizeReport`, where the code panics via `unreachable!` instead; `size` is
additionally allowed its deliberate blocking wait while the window thread
is alive and has not replied yet. -/
theorem c6_ops_total_amended (top : Int) (selfv av bv : LuaValue)
    (cmd : CmdChan) (ev ev2 : EvChan)
    (hnb : recv ev2 ≠ RecvResult.blocksForever)
    (hhead : ∀ a b r, ev.pending ≠ ToLuau.SizeReturned a b :: r) :
    isValueOrError (WebviewIpc.replace_html top selfv av cmd) ∧
    isValueOrError (WebviewIpc.alert top selfv bv cmd) ∧
    isValueOrError (WebviewIpc.close top selfv cmd) ∧
    isValueOrError (WebviewIpc.size top selfv cmd ev2) ∧
    isValueOrError (WebviewIpc.try_read top selfv ev) := by
  refine ⟨?_, ?_, ?_, ?_, ?_⟩
  · simp only [WebviewIpc.replace_html]
    repeat' split
    all_goals exact trivial
  · simp only [WebviewIpc.alert]
    repeat' split
    all_goals exact trivial
  · simp only [WebviewIpc.close]
    repeat' split
    all_goals exact trivial
  · simp only [WebviewIpc.size]
    repeat' split
    all_goals try exact trivial
    rename_i heq
    exact absurd heq hnb
  · simp only [WebviewIpc.try_read]
    repeat' split
    all_goals try exact trivial
    rename_i a b heq
    obtain ⟨r, hr⟩ := try_recv_got heq
    exact absurd hr (hhead a b r)

/-- Witness for the amended C6 at concrete arguments and queue states. -/
theorem c6_ops_total_amended_witness :
    isValueOrError (WebviewIpc.replace_html 1 validSelf (LuaValue.str "x") ⟨true⟩) ∧
    isValueOrError (WebviewIpc.alert 1 validSelf (LuaValue.boolean true) ⟨true⟩) ∧
    isValueOrError (WebviewIpc.close 1 validSelf ⟨true⟩) ∧
    isValueOrError (WebviewIpc.size 1 validSelf ⟨true⟩ ⟨[ToLuau.WindowClosed], true⟩) ∧
    isValueOrError (WebviewIpc.try_read 1 validSelf ⟨[], true⟩) :=
  c6_ops_total_amended 1 validSelf (LuaValue.str "x") (LuaValue.boolean true) ⟨true⟩
    ⟨[], true⟩ ⟨[ToLuau.WindowClosed], true⟩ (fun hb => RecvResult.noConfusion hb)
    (fun _ _ _ hl => List.noConfusion hl)

/-- Appending on the right preserves a known first character. -/
theorem headChar_append (pre suf : String) (c : Char) (h : pre.data.head? = some c) :
    (pre ++ suf).data.head? = some c := by
  cases hpd : pre.data with
  | nil =>
    rw [hpd] at h
    exact Option.noConfusion h
  | cons x xs =>
    rw [hpd] at h
    have hd : (pre ++ suf).data = x :: (xs ++ suf.data) := by
      show pre.data ++ suf.data = x :: (xs ++ suf.data)
      rw [hpd]
      rfl
    rw [hd]
    simpa using h

/-- Two strings with different first characters differ; used to separate
the argument-count error texts (which embed the presented count) from the
two fixed extraction error texts. -/
theorem ne_of_headChar (a b : String) (c1 c2 : Char)
    (h1 : a.data.head? = some c1) (h2 : b.data.head? = some c2) (hne : c1 ≠ c2) : a ≠ b := by
  intro he
  subst he
  rw [h1] at h2
  exact hne (Option.some.inj h2)

/-- C9: for every bridge operation, handle extraction rejects a
correctly-tagged userdata with a null inner payload, a wrong-tagged
userdata, and a wrong argument count, each with its own error text (no
dereference occurs: each case returns a wrapped error before the handle's
channels are touched), and the three error texts are pairwise distinct. -/
theorem c9_extraction_distinct (t top : Int) (av bv : LuaValue) (cmd : CmdChan) (ev : EvChan)
    (ht : t ≠ 13) (h1 : top ≠ 1) (h2 : top ≠ 2) :
    (WebviewIpc.replace_html 2 (.userdata 13 .nullPtr) av cmd = .errorObj nullInnerMsg ∧
      WebviewIpc.replace_html 2 (.userdata t .valid) av cmd = .errorObj wrongKindMsg ∧
      WebviewIpc.replace_html top validSelf av cmd = .errorObj (argcMsgReplaceHtml top) ∧
      argcMsgReplaceHtml top ≠ nullInnerMsg ∧ argcMsgReplaceHtml top ≠ wrongKindMsg) ∧
    (WebviewIpc.try_read 1 (.userdata 13 .nullPtr) ev = .errorObj nullInnerMsg ∧
      WebviewIpc.try_read 1 (.userdata t .valid) ev = .errorObj wrongKindMsg ∧
      WebviewIpc.try_read top validSelf ev = .errorObj (argcMsgTryRead top) ∧
      argcMsgTryRead top ≠ nullInnerMsg ∧ argcMsgTryRead top ≠ wrongKindMsg) ∧
    (WebviewIpc.alert 2 (.userdata 13 .nullPtr) bv cmd = .errorObj nullInnerMsg ∧
      WebviewIpc.alert 2 (.userdata t .valid) bv cmd = .errorObj wrongKindMsg ∧
      WebviewIpc.alert top validSelf bv cmd = .errorObj (argcMsgAlert top) ∧
      argcMsgAlert top ≠ nullInnerMsg ∧ argcMsgAlert top ≠ wrongKindMsg) ∧
    (WebviewIpc.size 1 (.userdata 13 .nullPtr) cmd ev = .errorObj nullInnerMsg ∧
      WebviewIpc.size 1 (.userdata t .valid) cmd ev = .errorObj wrongKindMsg ∧
      WebviewIpc.size top validSelf cmd ev = .errorObj (argcMsgSize top) ∧
      argcMsgSize top ≠ nullInnerMsg ∧ argcMsgSize top ≠ wrongKindMsg) ∧
    (WebviewIpc.close 1 (.userdata 13 .nullPtr) cmd = .errorObj nullInnerMsg ∧
      WebviewIpc.close 1 (.userdata t .valid) cmd = .errorObj wrongKindMsg ∧
      WebviewIpc.close top validSelf cmd = .errorObj (argcMsgClose top) ∧
      argcMsgClose top ≠ nullInnerMsg ∧ argcMsgClose top ≠ wrongKindMsg) ∧
    nullInnerMsg ≠ wrongKindMsg := by
  have hwrong : ∀ fn : String, get (.userdata t .valid) fn = .error wrongKindMsg := by
    intro fn
    simp [get, WEBVIEW_IPC_TAG, ht, wrongKindMsg]
  refine ⟨⟨rfl, ?_, ?_, ?_, ?_⟩, ⟨rfl, ?_, ?_, ?_, ?_⟩, ⟨rfl, ?_, ?_, ?_, ?_⟩,
    ⟨rfl, ?_, ?_, ?_, ?_⟩, ⟨rfl, ?_, ?_, ?_, ?_⟩, by decide⟩
  · simp [WebviewIpc.replace_html, hwrong]
  · simp [WebviewIpc.replace_html, h2, argcMsgReplaceHtml]
  · exact ne_of_headChar _ _ 'W' 'i' (headChar_append _ _ _ (by decide)) (by decide) (by decide)
  · exact ne_of_headChar _ _ 'W' 's' (headChar_append _ _ _ (by decide)) (by decide) (by decide)
  · simp [WebviewIpc.try_read, hwrong]
  · simp [WebviewIpc.try_read, h1, argcMsgTryRead]
  · exact ne_of_headChar _ _ 'W' 'i' (headChar_append _ _ _ (by decide)) (by decide) (by decide)
  · exact ne_of_headChar _ _ 'W' 's' (headChar_append _ _ _ (by decide)) (by decide) (by decide)
  · simp [WebviewIpc.alert, hwrong]
  · simp [WebviewIpc.alert, h2, argcMsgAlert]
  · exact ne_of_headChar _ _ 'W' 'i' (headChar_append _ _ _ (by decide)) (by decide) (by decide)
  · exact ne_of_headChar _ _ 'W' 's' (headChar_append _ _ _ (by decide)) (by decide) (by decide)
  · simp [WebviewIpc.size, hwrong]
  · simp [WebviewIpc.size, h1, argcMsgSize]
  · exact ne_of_headChar _ _ 'W' 'i' (headChar_append _ _ _ (by decide)) (by decide) (by decide)
  · exact ne_of_headChar _ _ 'W' 's' (headChar_append _ _ _ (by decide)) (by decide) (by decide)
  · simp [WebviewIpc.close, hwrong]
  · simp [WebviewIpc.close, h1, argcMsgClose]
  · exact ne_of_headChar _ _ 'W' 'i'
      (headChar_append _ _ _ (headChar_append _ _ _ (by decide))) (by decide) (by decide)
  · exact ne_of_headChar _ _ 'W' 's'
      (headChar_append _ _ _ (headChar_append _ _ _ (by decide))) (by decide) (by decide)

/-- Witness for C9 at concrete inputs: tag 7 for the wrong-tagged handle
and argument count 5 for the wrong-arity calls. -/
theorem c9_extraction_distinct_witness :
    (WebviewIpc.replace_html 2 (.userdata 13 .nullPtr) (LuaValue.str "x") ⟨true⟩ =
        .errorObj nullInnerMsg ∧
      WebviewIpc.replace_html 2 (.userdata 7 .valid) (LuaValue.str "x") ⟨true⟩ =
        .errorObj wrongKindMsg ∧
      WebviewIpc.replace_html 5 validSelf (LuaValue.str "x") ⟨true⟩ =
        .errorObj (argcMsgReplaceHtml 5) ∧
      argcMsgReplaceHtml 5 ≠ nullInnerMsg ∧ argcMsgReplaceHtml 5 ≠ wrongKindMsg) ∧
    (WebviewIpc.try_read 1 (.userdata 13 .nullPtr) ⟨[], true⟩ = .errorObj nullInnerMsg ∧
      WebviewIpc.try_read 1 (.userdata 7 .valid) ⟨[], true⟩ = .errorObj wrongKindMsg ∧
      WebviewIpc.try_read 5 validSelf ⟨[], true⟩ = .errorObj (argcMsgTryRead 5) ∧
      argcMsgTryRead 5 ≠ nullInnerMsg ∧ argcMsgTryRead 5 ≠ wrongKindMsg) ∧
    (WebviewIpc.alert 2 (.userdata 13 .nullPtr) (LuaValue.boolean true) ⟨true⟩ =
        .errorObj nullInnerMsg ∧
      WebviewIpc.alert 2 (.userdata 7 .valid) (LuaValue.boolean true) ⟨true⟩ =
        .errorObj wrongKindMsg ∧
      WebviewIpc.alert 5 validSelf (LuaValue.boolean true) ⟨true⟩ =
        .errorObj (argcMsgAlert 5) ∧
      argcMsgAlert 5 ≠ nullInnerMsg ∧ argcMsgAlert 5 ≠ wrongKindMsg) ∧
    (WebviewIpc.size 1 (.userdata 13 .nullPtr) ⟨true⟩ ⟨[], true⟩ = .errorObj nullInnerMsg ∧
      WebviewIpc.size 1 (.userdata 7 .valid) ⟨true⟩ ⟨[], true⟩ = .errorObj wrongKindMsg ∧
      WebviewIpc.size 5 validSelf ⟨true⟩ ⟨[], true⟩ = .errorObj (argcMsgSize 5) ∧
      argcMsgSize 5 ≠ nullInnerMsg ∧ argcMsgSize 5 ≠ wrongKindMsg) ∧
    (WebviewIpc.close 1 (.userdata 13 .nullPtr) ⟨true⟩ = .errorObj nullInnerMsg ∧
      WebviewIpc.close 1 (.userdata 7 .valid) ⟨true⟩ = .errorObj wrongKindMsg ∧
      WebviewIpc.close 5 validSelf ⟨true⟩ = .errorObj (argcMsgClose 5) ∧
      argcMsgClose 5 ≠ nullInnerMsg ∧ argcMsgClose 5 ≠ wrongKindMsg) ∧
    nullInnerMsg ≠ wrongKindMsg :=
  c9_extraction_distinct 7 5 (LuaValue.str "x") (LuaValue.boolean true) ⟨true⟩ ⟨[], true⟩
    (by decide) (by decide) (by decide)

end Webseal
